import Mathlib

/-!
Shallow embedding of the asynchronous routing dispatcher in
`routing/async_router.cpp` (namespace `routing`), and proofs of the spec's
claims about it.

Modelling conventions:
* The concurrency skeleton (mutexes, condition variable, threads) is erased:
  every public operation and every worker-loop iteration is modelled as a pure
  state transformer on the dispatcher state, mirroring the statements executed
  under the corresponding locks in source order.
* User callbacks, the statistics sink and the online fetcher are external
  collaborators; we model only their *presence* (`Bool` / `Option`) and record
  every call the dispatcher makes to them (scheduled UI tasks, engine calls,
  fetcher calls) in the result of each transformer.
* The routing engine is external; a worker run takes the engine's behaviour
  for that run as a parameter (`EngineOutcome`): either a result code or a
  thrown `RootException` with a message, plus the list the fetcher's
  `GetAbsentCountries` would append.
* `m2::PointD` coordinates and timing values are opaque payload for every
  claim (they are only copied around), so points are modelled as integer
  pairs and the `double` route-length / elapsed-seconds statistics values as
  pre-formatted strings.
* `m_routeCounter` is a C++ `uint64_t`; its increment is taken modulo `2^64`.
-/

namespace Routing

/-- Word size of the route counter (`uint64_t`). -/
def u64Mod : Nat := 2 ^ 64

/-- The closed result-code enumeration `routing::RouterResultCode`. -/
inductive RouterResultCode where
  | NoError
  | Cancelled
  | NoCurrentPosition
  | InconsistentMWMandRoute
  | RouteFileNotExist
  | StartPointNotFound
  | EndPointNotFound
  | PointsInDifferentMWM
  | RouteNotFound
  | NeedMoreMaps
  | InternalError
  | FileTooOld
  | IntermediatePointNotFound
  | TransitRouteNotFoundNoNetwork
  | TransitRouteNotFoundTooLongPedestrian
  | RouteNotFoundRedressRouteError
  deriving DecidableEq, Repr

/-- `m2::PointD`, as opaque payload (no claim computes with coordinates). -/
structure Point where
  x : Int
  y : Int
  deriving DecidableEq, Repr

/-- `routing::Checkpoints`: ordered waypoints with a start and a finish
(only `GetStart`/`GetFinish` and whole-value copies are used by this file). -/
structure Checkpoints where
  startPt : Point
  finishPt : Point
  intermediate : List Point
  deriving DecidableEq, Repr

/-- State of `AsyncRouter::RouterDelegateProxy`: which user callbacks were
supplied non-null at construction, and the cancellation flag held by the
engine-delegate sub-object (`m_delegate.IsCancelled()`). -/
structure RouterDelegateProxy where
  hasOnReady : Bool
  hasOnNeedMoreMaps : Bool
  hasRemoveRoute : Bool
  hasOnPointCheck : Bool
  hasOnProgress : Bool
  cancelled : Bool
  deriving DecidableEq, Repr

namespace RouterDelegateProxy

/-- `RouterDelegateProxy::Cancel`: sets the cancellation flag under the
proxy mutex (`m_delegate.Cancel()`). -/
def cancel (p : RouterDelegateProxy) : RouterDelegateProxy :=
  { p with cancelled := true }

/-- `RouterDelegateProxy::OnReady`: returns whether the user's on-ready
callback is invoked. Null callback: return; cancelled (checked under the
proxy mutex): return; otherwise invoke. -/
def onReadyFires (p : RouterDelegateProxy) : Bool :=
  if !p.hasOnReady then false
  else if p.cancelled then false
  else true

/-- `RouterDelegateProxy::OnNeedMoreMaps`: same filtering pattern. -/
def onNeedMoreMapsFires (p : RouterDelegateProxy) : Bool :=
  if !p.hasOnNeedMoreMaps then false
  else if p.cancelled then false
  else true

/-- `RouterDelegateProxy::OnRemoveRoute`: same filtering pattern. -/
def onRemoveRouteFires (p : RouterDelegateProxy) : Bool :=
  if !p.hasRemoveRoute then false
  else if p.cancelled then false
  else true

/-- `RouterDelegateProxy::OnProgress`: under the proxy mutex, returns if the
callback is null or the proxy is cancelled; otherwise snapshots the callback
and schedules its invocation on the GUI thread. Returns whether that
scheduling happens. -/
def onProgressFires (p : RouterDelegateProxy) : Bool :=
  if !p.hasOnProgress then false
  else if p.cancelled then false
  else true

/-- `RouterDelegateProxy::OnPointCheck`: compiled to a no-op unless
`SHOW_ROUTE_DEBUG_MARKS` is defined (`debugMarks`); when compiled in it
CHECKs the callback, returns if cancelled, else schedules on the GUI thread.
Returns whether the user callback is scheduled (a failed CHECK aborts the
process and schedules nothing). -/
def onPointCheckFires (debugMarks : Bool) (p : RouterDelegateProxy) : Bool :=
  if !debugMarks then false
  else if !p.hasOnPointCheck then false
  else if p.cancelled then false
  else true

end RouterDelegateProxy

/-! ## Statistics formatter -/

/-- The statistics record: `map<string, string>` modelled as an assoc list in
insertion order (`std::map`'s key-sorted iteration order is irrelevant to the
claims, which concern key membership only). -/
abbrev StatsRecord := List (String × String)

/-- Key membership in a statistics record. -/
def containsKey (m : StatsRecord) (k : String) : Bool :=
  m.any (fun kv => kv.1 == k)

/-- `map::emplace`: inserts the pair only when the key is absent. -/
def emplace (m : StatsRecord) (k v : String) : StatsRecord :=
  if containsKey m k then m else m ++ [(k, v)]

/-- The name `DebugPrint(RouterResultCode)` produces. The enum's printer lives
outside `src/`; no claim depends on the value, only on which keys carry it. -/
def debugPrintCode : RouterResultCode → String
  | .NoError => "NoError"
  | .Cancelled => "Cancelled"
  | .NoCurrentPosition => "NoCurrentPosition"
  | .InconsistentMWMandRoute => "InconsistentMWMandRoute"
  | .RouteFileNotExist => "RouteFileNotExist"
  | .StartPointNotFound => "StartPointNotFound"
  | .EndPointNotFound => "EndPointNotFound"
  | .PointsInDifferentMWM => "PointsInDifferentMWM"
  | .RouteNotFound => "RouteNotFound"
  | .NeedMoreMaps => "NeedMoreMaps"
  | .InternalError => "InternalError"
  | .FileTooOld => "FileTooOld"
  | .IntermediatePointNotFound => "IntermediatePointNotFound"
  | .TransitRouteNotFoundNoNetwork => "TransitRouteNotFoundNoNetwork"
  | .TransitRouteNotFoundTooLongPedestrian => "TransitRouteNotFoundTooLongPedestrian"
  | .RouteNotFoundRedressRouteError => "RouteNotFoundRedressRouteError"

/-- The geometry strings `PrepareStatisticsData` formats: the Mercator
longitude/latitude conversions and `to_string_dac` rounding live outside
`src/`, so the already-formatted strings are taken as inputs. -/
structure FormattedGeometry where
  routerName : String
  startLon : String
  startLat : String
  startDirectionX : String
  startDirectionY : String
  finalLon : String
  finalLat : String
  deriving DecidableEq, Repr

/-- `PrepareStatisticsData`: the base record of router name and rounded
request geometry. -/
def PrepareStatisticsData (g : FormattedGeometry) : StatsRecord :=
  [("name", g.routerName),
   ("startLon", g.startLon),
   ("startLat", g.startLat),
   ("startDirectionX", g.startDirectionX),
   ("startDirectionY", g.startDirectionY),
   ("finalLon", g.finalLon),
   ("finalLat", g.finalLat)]

/-- Result-form `SendStatistics`: `none` when no statistics callback is
installed, otherwise the emitted record — base data plus `result` and
`elapsed`, plus `distance` only for `NoError`. -/
def SendStatisticsResult (hasSink : Bool) (g : FormattedGeometry)
    (resultCode : RouterResultCode) (routeLenM elapsedSec : String) :
    Option StatsRecord :=
  if !hasSink then none
  else
    let st := PrepareStatisticsData g
    let st := emplace st "result" (debugPrintCode resultCode)
    let st := emplace st "elapsed" elapsedSec
    let st := if resultCode = RouterResultCode.NoError
              then emplace st "distance" routeLenM else st
    some st

/-- Exception-form `SendStatistics`: `none` when no statistics callback is
installed, otherwise base data plus the `exception` message. -/
def SendStatisticsExn (hasSink : Bool) (g : FormattedGeometry)
    (exceptionMessage : String) : Option StatsRecord :=
  if !hasSink then none
  else some (emplace (PrepareStatisticsData g) "exception" exceptionMessage)

/-! ## Dispatcher state and public API -/

/-- State of an `AsyncRouter` instance. Delegate proxies are `shared_ptr`s
mutated through aliases (the worker's snapshot and pending UI tasks see a
`Cancel` issued later through the dispatcher), so they live in a heap
`proxies : Nat → RouterDelegateProxy` and the dispatcher's `m_delegate` slot
holds a proxy id. `router` is the installed engine modelled by its
`GetName()` (the engine's behaviour is supplied per worker run);
`absentFetcher`, the statistics sink and the dispatcher-wide point-check
callback are modelled by presence. -/
structure AsyncRouterState where
  threadExit : Bool
  hasRequest : Bool
  clearState : Bool
  checkpoints : Checkpoints
  startDirection : Point
  adjustToPrevRoute : Bool
  router : Option String
  absentFetcher : Bool
  delegate : Option Nat
  proxies : Nat → RouterDelegateProxy
  nextProxyId : Nat
  routeCounter : Nat
  hasStatsSink : Bool
  pointCheckCallback : Bool

namespace AsyncRouter

/-- `AsyncRouter::AsyncRouter`: flags start false; no engine, fetcher or
delegate is installed; the statistics and point-check callbacks are stored.
Modelled from the spec: the route counter's initialiser and the empty
request slot live in the header (`async_router.hpp`, not under `src/`); per
the spec the counter "starts at 0", and the slot fields are default-valued. -/
def initState (hasSink pointCheck : Bool) : AsyncRouterState :=
  { threadExit := false
    hasRequest := false
    clearState := false
    checkpoints := ⟨⟨0, 0⟩, ⟨0, 0⟩, []⟩
    startDirection := ⟨0, 0⟩
    adjustToPrevRoute := false
    router := none
    absentFetcher := false
    delegate := none
    proxies := fun _ => ⟨false, false, false, false, false, false⟩
    nextProxyId := 0
    routeCounter := 0
    hasStatsSink := hasSink
    pointCheckCallback := pointCheck }

/-- `AsyncRouter::ResetDelegate`: if a delegate is installed, cancel it
(through its shared pointer, hence in the heap) and clear the slot. -/
def ResetDelegate (s : AsyncRouterState) : AsyncRouterState :=
  match s.delegate with
  | some i =>
      { s with
        proxies := fun j => if j = i then (s.proxies j).cancel else s.proxies j
        delegate := none }
  | none => s

/-- `AsyncRouter::SetRouter`: under the lock, reset the delegate, then
install the new engine and fetcher. -/
def SetRouter (s : AsyncRouterState) (router : Option String) (fetcher : Bool) :
    AsyncRouterState :=
  let s := ResetDelegate s
  { s with router := router, absentFetcher := fetcher }

/-- Arguments of a `CalculateRoute` submission: the request slot values and
which user callbacks are supplied non-null (the timeout only parameterises
the engine-delegate and is dropped). -/
structure RequestArgs where
  checkpoints : Checkpoints
  direction : Point
  adjustToPrevRoute : Bool
  hasReadyCallback : Bool
  hasNeedMoreMapsCallback : Bool
  hasRemoveRouteCallback : Bool
  hasProgressCallback : Bool
  deriving DecidableEq, Repr

/-- Public `AsyncRouter::CalculateRoute`: under the lock, overwrite the
pending slot, reset the previous delegate, install a fresh proxy (built from
the submission's callbacks and the dispatcher's point-check callback, with a
reset cancellation flag), set has-request and signal the worker. -/
def submitCalculateRoute (s : AsyncRouterState) (a : RequestArgs) :
    AsyncRouterState :=
  let s := { s with
    checkpoints := a.checkpoints
    startDirection := a.direction
    adjustToPrevRoute := a.adjustToPrevRoute }
  let s := ResetDelegate s
  let p : RouterDelegateProxy :=
    { hasOnReady := a.hasReadyCallback
      hasOnNeedMoreMaps := a.hasNeedMoreMapsCallback
      hasRemoveRoute := a.hasRemoveRouteCallback
      hasOnPointCheck := s.pointCheckCallback
      hasOnProgress := a.hasProgressCallback
      cancelled := false }
  { s with
    proxies := fun j => if j = s.nextProxyId then p else s.proxies j
    delegate := some s.nextProxyId
    nextProxyId := s.nextProxyId + 1
    hasRequest := true }

/-- `AsyncRouter::ClearState`: under the lock, set the clear-state flag,
signal the worker, and reset the delegate. -/
def ClearState (s : AsyncRouterState) : AsyncRouterState :=
  ResetDelegate { s with clearState := true }

/-- The body of `AsyncRouter::~AsyncRouter` executed under the lock before
joining: reset the delegate, set the exit flag, signal. -/
def destructorBody (s : AsyncRouterState) : AsyncRouterState :=
  { ResetDelegate s with threadExit := true }

end AsyncRouter

/-- Key membership behind the optional emission: `false` when nothing was
emitted, else membership in the emitted record. -/
def recordHasKey (o : Option StatsRecord) (k : String) : Bool :=
  match o with
  | none => false
  | some m => containsKey m k

/-! ## Worker -/

/-- Behaviour of the `try` block's engine call for one worker run: either
`router->CalculateRoute` returns a code, or a `RootException` with the given
message escapes it. (Exceptions outside the root family propagate and abort
the process; they are outside the model, as in the spec.) -/
inductive EngineOutcome where
  | result (code : RouterResultCode)
  | exn (msg : String)
  deriving DecidableEq, Repr

/-- A task the worker posts to the GUI thread. Delegate tasks carry the
proxy id their closure captures; statistics tasks run `SendStatistics` with
the captured values (the numeric route-length/elapsed payload is opaque and
elided). The route `shared_ptr` passed to on-ready is represented by the id
the route object was tagged with. -/
inductive UITask where
  | statsResult (code : RouterResultCode)
  | statsExn (msg : String)
  | onReady (proxyId : Nat) (routeId : Nat) (code : RouterResultCode)
  | onNeedMoreMaps (proxyId : Nat) (routeId : Nat) (absent : List String)
  | onRemoveRoute (proxyId : Nat) (code : RouterResultCode)
  deriving DecidableEq, Repr

/-- The proxy a scheduled task will call into, if any. -/
def taskProxyId : UITask → Option Nat
  | .onReady i _ _ => some i
  | .onNeedMoreMaps i _ _ => some i
  | .onRemoveRoute i _ => some i
  | .statsResult _ => none
  | .statsExn _ => none

/-- Executing a scheduled task on the GUI thread against the current proxy
heap: whether a *user* callback is invoked (statistics tasks call the sink,
not a user callback). -/
def invokesUserCallback (ps : Nat → RouterDelegateProxy) : UITask → Bool
  | .onReady i _ _ => (ps i).onReadyFires
  | .onNeedMoreMaps i _ _ => (ps i).onNeedMoreMapsFires
  | .onRemoveRoute i _ => (ps i).onRemoveRouteFires
  | .statsResult _ => false
  | .statsExn _ => false

/-- Is the task an `OnReady` scheduling? -/
def isOnReadyTask : UITask → Bool
  | .onReady _ _ _ => true
  | _ => false

/-- Is the task a secondary-delivery callback (`OnNeedMoreMaps` or
`OnRemoveRoute`)? -/
def isSecondaryTask : UITask → Bool
  | .onNeedMoreMaps _ _ _ => true
  | .onRemoveRoute _ _ => true
  | _ => false

/-- Is the task a statistics emission? -/
def isStatsTask : UITask → Bool
  | .statsResult _ => true
  | .statsExn _ => true
  | _ => false

/-- The list `GetAbsentCountries` drains: consulted only when a fetcher is
present and the engine's code is not `Cancelled`; otherwise the `absent`
vector stays empty. -/
def drainedAbsent (hasFetcher : Bool) (code : RouterResultCode)
    (fetched : List String) : List String :=
  if hasFetcher && decide (code ≠ RouterResultCode.Cancelled) then fetched
  else []

/-- The code upgrade after the absent fetch:
`if (!absent.empty() && code == NoError) code = NeedMoreMaps`. -/
def upgradeCode (absent : List String) (code : RouterResultCode) :
    RouterResultCode :=
  if absent ≠ [] ∧ code = RouterResultCode.NoError then
    RouterResultCode.NeedMoreMaps
  else code

/-- Everything one execution of the worker's `AsyncRouter::CalculateRoute`
body produces: the post-state, the GUI tasks in scheduling order, which
external calls were made, and the id the run's route object was tagged with
(`none` when the guards dropped the request before constructing one). -/
structure CalcOutcome where
  state : AsyncRouterState
  tasks : List UITask
  engineCalled : Bool
  generateRequestCalled : Bool
  getAbsentCalled : Bool
  producedRouteId : Option Nat

namespace AsyncRouter

/-- The worker's `AsyncRouter::CalculateRoute` body. Under the lock: read
and clear has-request; return if there was none, or no engine, or no
delegate; otherwise snapshot the slot and pre-increment the route counter.
Outside the lock: tag the route, kick the fetcher, call the engine; on a
`RootException` schedule exception statistics and `OnReady(InternalError)`
and return; otherwise schedule result statistics, schedule `OnReady` iff
`NoError`, drain the fetcher unless `Cancelled`, upgrade the code, and
schedule the secondary callback iff the final code is not `NoError`. -/
def calcRouteBody (s0 : AsyncRouterState) (eng : EngineOutcome)
    (fetched : List String) : CalcOutcome :=
  let hadRequest := s0.hasRequest
  let s1 := { s0 with hasRequest := false }
  if !hadRequest then ⟨s1, [], false, false, false, none⟩
  else match s1.router, s1.delegate with
  | none, _ => ⟨s1, [], false, false, false, none⟩
  | some _, none => ⟨s1, [], false, false, false, none⟩
  | some _routerName, some d =>
    let routeId := (s1.routeCounter + 1) % u64Mod
    let s2 := { s1 with routeCounter := routeId }
    let genReq := s2.absentFetcher
    match eng with
    | .exn msg =>
        ⟨s2, [UITask.statsExn msg,
              UITask.onReady d routeId RouterResultCode.InternalError],
         true, genReq, false, some routeId⟩
    | .result code =>
        let primary :=
          UITask.statsResult code ::
            (if code = RouterResultCode.NoError
             then [UITask.onReady d routeId code] else [])
        let getAbsent :=
          s2.absentFetcher && decide (code ≠ RouterResultCode.Cancelled)
        let absent := drainedAbsent s2.absentFetcher code fetched
        let code' := upgradeCode absent code
        let secondary :=
          if code' ≠ RouterResultCode.NoError then
            (if code' = RouterResultCode.NeedMoreMaps
             then [UITask.onNeedMoreMaps d routeId absent]
             else [UITask.onRemoveRoute d code'])
          else []
        ⟨s2, primary ++ secondary, true, genReq, getAbsent, some routeId⟩

/-- What one wake-up of `AsyncRouter::ThreadFunc`'s loop produces. -/
structure IterOutcome where
  state : AsyncRouterState
  exited : Bool
  engineClearStateCalled : Bool
  tasks : List UITask
  engineCalled : Bool
  generateRequestCalled : Bool
  getAbsentCalled : Bool
  producedRouteId : Option Nat

/-- One iteration of `AsyncRouter::ThreadFunc` after the condition variable
wait returns: clear-state handling first (engine `ClearState` only when an
engine is installed), then the exit check, then the request check, then the
`CalculateRoute` body. -/
def threadFuncIter (s0 : AsyncRouterState) (eng : EngineOutcome)
    (fetched : List String) : IterOutcome :=
  let csCalled := s0.clearState && s0.router.isSome
  let s1 := if csCalled then { s0 with clearState := false } else s0
  if s1.threadExit then
    ⟨s1, true, csCalled, [], false, false, false, none⟩
  else if !s1.hasRequest then
    ⟨s1, false, csCalled, [], false, false, false, none⟩
  else
    let out := calcRouteBody s1 eng fetched
    ⟨out.state, false, csCalled, out.tasks, out.engineCalled,
     out.generateRequestCalled, out.getAbsentCalled, out.producedRouteId⟩

/-- An event in a dispatcher history: a public API call from the UI thread,
or one worker execution of the `CalculateRoute` body (with that run's
engine/fetcher behaviour). -/
inductive DispatchEvent where
  | setRouter (router : Option String) (fetcher : Bool)
  | submit (a : RequestArgs)
  | clearStateCall
  | workerRun (eng : EngineOutcome) (fetched : List String)
  deriving Repr

/-- One event step: the next state and the route id produced, if any. -/
def stepEvent (s : AsyncRouterState) : DispatchEvent →
    AsyncRouterState × Option Nat
  | .setRouter r f => (SetRouter s r f, none)
  | .submit a => (submitCalculateRoute s a, none)
  | .clearStateCall => (ClearState s, none)
  | .workerRun eng fetched =>
      let out := calcRouteBody s eng fetched
      (out.state, out.producedRouteId)

/-- Run a history of events, collecting the produced route ids in order. -/
def runEvents (s : AsyncRouterState) : List DispatchEvent →
    AsyncRouterState × List Nat
  | [] => (s, [])
  | e :: es =>
      let (s1, pid) := stepEvent s e
      let (s2, ids) := runEvents s1 es
      (s2, pid.toList ++ ids)

end AsyncRouter

/-! ## Concrete sample values used by the witnesses -/

/-- A proxy with every callback supplied and the cancellation flag set. -/
def fullCancelledProxy : RouterDelegateProxy :=
  ⟨true, true, true, true, true, true⟩

/-- A sample `CalculateRoute` submission with all callbacks supplied. -/
def sampleArgs : AsyncRouter.RequestArgs :=
  ⟨⟨⟨0, 0⟩, ⟨1, 1⟩, []⟩, ⟨0, 0⟩, false, true, true, true, true⟩

/-- A dispatcher that has an engine, a fetcher and a pending request. -/
def sampleReadyState : AsyncRouterState :=
  AsyncRouter.submitCalculateRoute
    (AsyncRouter.SetRouter (AsyncRouter.initState true false) (some "astar") true)
    sampleArgs

/-- A dispatcher with a pending request but no engine installed. -/
def sampleNoRouterState : AsyncRouterState :=
  AsyncRouter.submitCalculateRoute (AsyncRouter.initState true false) sampleArgs

/-- A sample statistics geometry. -/
def sampleGeometry : FormattedGeometry :=
  ⟨"astar", "10.5", "20.5", "0.1", "0.2", "11.5", "21.5"⟩

/-- An event history: configure, run two requests to completion, clear
state, then one worker wake-up with nothing pending. -/
def sampleEvents : List AsyncRouter.DispatchEvent :=
  [AsyncRouter.DispatchEvent.setRouter (some "astar") false,
   AsyncRouter.DispatchEvent.submit sampleArgs,
   AsyncRouter.DispatchEvent.workerRun
     (EngineOutcome.result RouterResultCode.NoError) [],
   AsyncRouter.DispatchEvent.submit sampleArgs,
   AsyncRouter.DispatchEvent.workerRun
     (EngineOutcome.result RouterResultCode.RouteNotFound) [],
   AsyncRouter.DispatchEvent.clearStateCall,
   AsyncRouter.DispatchEvent.workerRun
     (EngineOutcome.result RouterResultCode.NoError) []]

/-- A dispatcher with no engine, a live delegate and the clear-state flag
down: the input on which `ClearState` is observably not a no-op. -/
def clearStateSample : AsyncRouterState :=
  { AsyncRouter.initState true false with
      delegate := some 0
      proxies := fun _ => ⟨true, true, true, false, true, false⟩
      nextProxyId := 1 }

/-- `sampleReadyState` at the moment the destructor has signalled exit while
a request is still pending and the clear-state flag is up. -/
def sampleExitState : AsyncRouterState :=
  { sampleReadyState with threadExit := true, clearState := true }

/-- The outcome of running the sample request to a `NoError` completion. -/
def sampleOutcome : CalcOutcome :=
  AsyncRouter.calcRouteBody sampleReadyState
    (EngineOutcome.result RouterResultCode.NoError) []

/-! ## Theorems -/

/-- C1: for every delegate proxy whose cancellation flag is set — in
particular after `Cancel`, which sets it — none of `OnReady`,
`OnNeedMoreMaps`, `OnRemoveRoute`, `OnProgress`, `OnPointCheck` invokes or
schedules its user callback. -/
theorem cancelled_proxy_schedules_no_callback (p : RouterDelegateProxy)
    (debugMarks : Bool) (h : p.cancelled = true) :
    p.onReadyFires = false ∧ p.onNeedMoreMapsFires = false ∧
    p.onRemoveRouteFires = false ∧ p.onProgressFires = false ∧
    RouterDelegateProxy.onPointCheckFires debugMarks p = false ∧
    (∀ q : RouterDelegateProxy, q.cancel.cancelled = true) := by
  refine ⟨?_, ?_, ?_, ?_, ?_, fun q => rfl⟩ <;>
    simp [RouterDelegateProxy.onReadyFires,
          RouterDelegateProxy.onNeedMoreMapsFires,
          RouterDelegateProxy.onRemoveRouteFires,
          RouterDelegateProxy.onProgressFires,
          RouterDelegateProxy.onPointCheckFires, h]

/-- Witness for C1 at a fully-populated cancelled proxy. -/
theorem cancelled_proxy_schedules_no_callback_witness :
    fullCancelledProxy.cancelled = true ∧
    (fullCancelledProxy.onReadyFires = false ∧
     fullCancelledProxy.onNeedMoreMapsFires = false ∧
     fullCancelledProxy.onRemoveRouteFires = false ∧
     fullCancelledProxy.onProgressFires = false ∧
     RouterDelegateProxy.onPointCheckFires true fullCancelledProxy = false ∧
     (∀ q : RouterDelegateProxy, q.cancel.cancelled = true)) :=
  ⟨rfl, cancelled_proxy_schedules_no_callback fullCancelledProxy true rfl⟩

/-- C5: without a sink nothing is emitted; with a sink the result-form record
carries `result` and `elapsed` and carries `distance` exactly for `NoError`;
the exception-form record carries `exception` and none of `result`,
`elapsed`, `distance`. -/
theorem sendStatistics_key_contract (g : FormattedGeometry)
    (code : RouterResultCode) (routeLenM elapsedSec msg : String) :
    SendStatisticsResult false g code routeLenM elapsedSec = none ∧
    SendStatisticsExn false g msg = none ∧
    recordHasKey (SendStatisticsResult true g code routeLenM elapsedSec)
      "result" = true ∧
    recordHasKey (SendStatisticsResult true g code routeLenM elapsedSec)
      "elapsed" = true ∧
    recordHasKey (SendStatisticsResult true g code routeLenM elapsedSec)
      "distance" = decide (code = RouterResultCode.NoError) ∧
    recordHasKey (SendStatisticsExn true g msg) "exception" = true ∧
    recordHasKey (SendStatisticsExn true g msg) "result" = false ∧
    recordHasKey (SendStatisticsExn true g msg) "elapsed" = false ∧
    recordHasKey (SendStatisticsExn true g msg) "distance" = false := by
  refine ⟨rfl, rfl, ?_, ?_, ?_, rfl, rfl, rfl, rfl⟩ <;> cases code <;> rfl

/-- C8: when the worker snapshots a pending request and finds no engine or
no delegate, it drops it silently — no engine or fetcher call, no scheduled
UI task (callbacks or statistics), no route produced, the has-request flag
cleared and the route counter untouched. -/
theorem snapshot_guard_drops_request (s : AsyncRouterState)
    (eng : EngineOutcome) (fetched : List String)
    (hreq : s.hasRequest = true)
    (h : s.router = none ∨ s.delegate = none) :
    (AsyncRouter.calcRouteBody s eng fetched).tasks = [] ∧
    (AsyncRouter.calcRouteBody s eng fetched).engineCalled = false ∧
    (AsyncRouter.calcRouteBody s eng fetched).generateRequestCalled = false ∧
    (AsyncRouter.calcRouteBody s eng fetched).getAbsentCalled = false ∧
    (AsyncRouter.calcRouteBody s eng fetched).producedRouteId = none ∧
    (AsyncRouter.calcRouteBody s eng fetched).state.hasRequest = false ∧
    (AsyncRouter.calcRouteBody s eng fetched).state.routeCounter
      = s.routeCounter := by
  rcases h with hr | hd
  · simp [AsyncRouter.calcRouteBody, hreq, hr]
  · cases hr : s.router <;>
      simp [AsyncRouter.calcRouteBody, hreq, hd, hr]

/-- Witness for C8 on a dispatcher with a pending request and no engine. -/
theorem snapshot_guard_drops_request_witness :
    sampleNoRouterState.hasRequest = true ∧
    (sampleNoRouterState.router = none ∨ sampleNoRouterState.delegate = none) ∧
    ((AsyncRouter.calcRouteBody sampleNoRouterState
        (EngineOutcome.result RouterResultCode.NoError) []).tasks = [] ∧
     (AsyncRouter.calcRouteBody sampleNoRouterState
        (EngineOutcome.result RouterResultCode.NoError) []).engineCalled = false ∧
     (AsyncRouter.calcRouteBody sampleNoRouterState
        (EngineOutcome.result RouterResultCode.NoError) []).generateRequestCalled = false ∧
     (AsyncRouter.calcRouteBody sampleNoRouterState
        (EngineOutcome.result RouterResultCode.NoError) []).getAbsentCalled = false ∧
     (AsyncRouter.calcRouteBody sampleNoRouterState
        (EngineOutcome.result RouterResultCode.NoError) []).producedRouteId = none ∧
     (AsyncRouter.calcRouteBody sampleNoRouterState
        (EngineOutcome.result RouterResultCode.NoError) []).state.hasRequest = false ∧
     (AsyncRouter.calcRouteBody sampleNoRouterState
        (EngineOutcome.result RouterResultCode.NoError) []).state.routeCounter
       = sampleNoRouterState.routeCounter) :=
  ⟨rfl, Or.inl rfl,
   snapshot_guard_drops_request sampleNoRouterState
     (EngineOutcome.result RouterResultCode.NoError) [] rfl (Or.inl rfl)⟩

/-- C10: when the worker wakes with the exit flag set it exits without
processing any pending request — no engine call, no fetcher call, no UI
task, no route — while the clear-state handling still ran before the exit
check (the engine's `ClearState` is called exactly when the flag is up and
an engine is installed); and the destructor has already set the exit flag
and cancelled the active delegate before the worker wakes. -/
theorem exit_discards_pending_request (s : AsyncRouterState)
    (eng : EngineOutcome) (fetched : List String)
    (hexit : s.threadExit = true) :
    (AsyncRouter.threadFuncIter s eng fetched).exited = true ∧
    (AsyncRouter.threadFuncIter s eng fetched).tasks = [] ∧
    (AsyncRouter.threadFuncIter s eng fetched).engineCalled = false ∧
    (AsyncRouter.threadFuncIter s eng fetched).generateRequestCalled = false ∧
    (AsyncRouter.threadFuncIter s eng fetched).getAbsentCalled = false ∧
    (AsyncRouter.threadFuncIter s eng fetched).producedRouteId = none ∧
    (AsyncRouter.threadFuncIter s eng fetched).engineClearStateCalled
      = (s.clearState && s.router.isSome) ∧
    (AsyncRouter.destructorBody s).threadExit = true ∧
    (∀ i, s.delegate = some i →
      ((AsyncRouter.destructorBody s).proxies i).cancelled = true) := by
  have hdel : ∀ i, s.delegate = some i →
      ((AsyncRouter.destructorBody s).proxies i).cancelled = true := by
    intro i hdi
    simp [AsyncRouter.destructorBody, AsyncRouter.ResetDelegate, hdi,
          RouterDelegateProxy.cancel]
  refine ⟨?_, ?_, ?_, ?_, ?_, ?_, ?_, rfl, hdel⟩ <;>
    by_cases hcs : (s.clearState && s.router.isSome) = true <;>
      simp [AsyncRouter.threadFuncIter, hcs, hexit]

/-- Witness for C10: destruction with a pending request and the clear-state
flag up, an engine installed and a delegate active. -/
theorem exit_discards_pending_request_witness :
    sampleExitState.threadExit = true ∧
    ((AsyncRouter.threadFuncIter sampleExitState
        (EngineOutcome.result RouterResultCode.NoError) []).exited = true ∧
     (AsyncRouter.threadFuncIter sampleExitState
        (EngineOutcome.result RouterResultCode.NoError) []).tasks = [] ∧
     (AsyncRouter.threadFuncIter sampleExitState
        (EngineOutcome.result RouterResultCode.NoError) []).engineCalled = false ∧
     (AsyncRouter.threadFuncIter sampleExitState
        (EngineOutcome.result RouterResultCode.NoError) []).generateRequestCalled
       = false ∧
     (AsyncRouter.threadFuncIter sampleExitState
        (EngineOutcome.result RouterResultCode.NoError) []).getAbsentCalled = false ∧
     (AsyncRouter.threadFuncIter sampleExitState
        (EngineOutcome.result RouterResultCode.NoError) []).producedRouteId = none ∧
     (AsyncRouter.threadFuncIter sampleExitState
        (EngineOutcome.result RouterResultCode.NoError) []).engineClearStateCalled
       = (sampleExitState.clearState && sampleExitState.router.isSome) ∧
     (AsyncRouter.destructorBody sampleExitState).threadExit = true ∧
     (∀ i, sampleExitState.delegate = some i →
       ((AsyncRouter.destructorBody sampleExitState).proxies i).cancelled
         = true)) :=
  ⟨rfl, exit_discards_pending_request sampleExitState
    (EngineOutcome.result RouterResultCode.NoError) [] rfl⟩

/-- C2: in a worker execution that passes the snapshot guards, `OnReady` is
scheduled exactly once when the engine returns `NoError`; exactly once —
with code `InternalError` and the freshly-tagged (not yet populated) route,
after the exception statistics — when the engine throws a root-family
exception; and zero times for every other engine result code. -/
theorem onReady_scheduled_exactly_once (s : AsyncRouterState)
    (fetched : List String) (msg : String) (code : RouterResultCode)
    (rname : String) (i : Nat)
    (hreq : s.hasRequest = true) (hrt : s.router = some rname)
    (hd : s.delegate = some i) :
    ((AsyncRouter.calcRouteBody s (EngineOutcome.result code) fetched).tasks.countP
        isOnReadyTask = if code = RouterResultCode.NoError then 1 else 0) ∧
    ((AsyncRouter.calcRouteBody s (EngineOutcome.exn msg) fetched).tasks
        = [UITask.statsExn msg,
           UITask.onReady i ((s.routeCounter + 1) % u64Mod)
             RouterResultCode.InternalError]) ∧
    ((AsyncRouter.calcRouteBody s (EngineOutcome.exn msg) fetched).tasks.countP
        isOnReadyTask = 1) := by
  refine ⟨?_, ?_, ?_⟩
  · by_cases hc : code = RouterResultCode.NoError
    · subst hc
      simp only [AsyncRouter.calcRouteBody, hreq, hrt, hd]
      split_ifs <;>
        simp_all [isOnReadyTask, List.countP_cons, List.countP_append]
    · simp only [AsyncRouter.calcRouteBody, hreq, hrt, hd]
      split_ifs <;>
        simp_all [isOnReadyTask, List.countP_cons, List.countP_append]
  · simp [AsyncRouter.calcRouteBody, hreq, hrt, hd]
  · simp [AsyncRouter.calcRouteBody, hreq, hrt, hd, isOnReadyTask,
          List.countP_cons]

/-- Witness for C2 on a ready dispatcher, engine outcome `NoError`. -/
theorem onReady_scheduled_exactly_once_witness :
    sampleReadyState.hasRequest = true ∧
    sampleReadyState.router = some "astar" ∧
    sampleReadyState.delegate = some 0 ∧
    (((AsyncRouter.calcRouteBody sampleReadyState
        (EngineOutcome.result RouterResultCode.NoError) []).tasks.countP
          isOnReadyTask
        = if RouterResultCode.NoError = RouterResultCode.NoError then 1 else 0) ∧
     ((AsyncRouter.calcRouteBody sampleReadyState
        (EngineOutcome.exn "bad mwm") []).tasks
        = [UITask.statsExn "bad mwm",
           UITask.onReady 0 ((sampleReadyState.routeCounter + 1) % u64Mod)
             RouterResultCode.InternalError]) ∧
     ((AsyncRouter.calcRouteBody sampleReadyState
        (EngineOutcome.exn "bad mwm") []).tasks.countP isOnReadyTask = 1)) :=
  ⟨rfl, rfl, rfl,
   onReady_scheduled_exactly_once sampleReadyState [] "bad mwm"
     RouterResultCode.NoError "astar" 0 rfl rfl rfl⟩

/-- C3: in a non-exception worker execution that passes the snapshot guards,
after the absent fetch and upgrade: if the final code is not `NoError`,
exactly one secondary callback is scheduled — `OnNeedMoreMaps` with the
route's tagged id and the drained absent list when the final code is
`NeedMoreMaps`, else `OnRemoveRoute` with the final code; if the final code
is `NoError`, no secondary callback is scheduled; secondary callbacks always
come after the primary deliveries. -/
theorem secondary_delivery_exactly_one (s : AsyncRouterState)
    (fetched : List String) (code : RouterResultCode) (rname : String) (i : Nat)
    (hreq : s.hasRequest = true) (hrt : s.router = some rname)
    (hd : s.delegate = some i) :
    ((AsyncRouter.calcRouteBody s (EngineOutcome.result code) fetched).producedRouteId
       = some ((s.routeCounter + 1) % u64Mod)) ∧
    (upgradeCode (drainedAbsent s.absentFetcher code fetched) code
        ≠ RouterResultCode.NoError →
      (AsyncRouter.calcRouteBody s (EngineOutcome.result code) fetched).tasks.filter
          isSecondaryTask
        = [if upgradeCode (drainedAbsent s.absentFetcher code fetched) code
              = RouterResultCode.NeedMoreMaps
           then UITask.onNeedMoreMaps i ((s.routeCounter + 1) % u64Mod)
                  (drainedAbsent s.absentFetcher code fetched)
           else UITask.onRemoveRoute i
                  (upgradeCode (drainedAbsent s.absentFetcher code fetched) code)]) ∧
    (upgradeCode (drainedAbsent s.absentFetcher code fetched) code
        = RouterResultCode.NoError →
      (AsyncRouter.calcRouteBody s (EngineOutcome.result code) fetched).tasks.countP
          isSecondaryTask = 0) ∧
    ((AsyncRouter.calcRouteBody s (EngineOutcome.result code) fetched).tasks
       = (AsyncRouter.calcRouteBody s
            (EngineOutcome.result code) fetched).tasks.filter
            (fun t => !isSecondaryTask t)
         ++ (AsyncRouter.calcRouteBody s
              (EngineOutcome.result code) fetched).tasks.filter
             isSecondaryTask) := by
  refine ⟨?_, ?_, ?_, ?_⟩
  · simp [AsyncRouter.calcRouteBody, hreq, hrt, hd]
  · intro hfin
    simp only [AsyncRouter.calcRouteBody, hreq, hrt, hd]
    split_ifs <;> simp_all [isSecondaryTask]
  · intro hfin
    simp only [AsyncRouter.calcRouteBody, hreq, hrt, hd]
    split_ifs <;> simp_all [isSecondaryTask]
  · simp only [AsyncRouter.calcRouteBody, hreq, hrt, hd]
    split_ifs <;> simp [isSecondaryTask]

/-- Witness for C3 on a ready dispatcher: engine `NoError` with a non-empty
absent list upgrades to `NeedMoreMaps` and schedules `OnNeedMoreMaps` once,
after `OnReady`. -/
theorem secondary_delivery_exactly_one_witness :
    sampleReadyState.hasRequest = true ∧
    sampleReadyState.router = some "astar" ∧
    sampleReadyState.delegate = some 0 ∧
    (((AsyncRouter.calcRouteBody sampleReadyState
         (EngineOutcome.result RouterResultCode.NoError)
         ["US_California", "US_Nevada"]).producedRouteId
        = some ((sampleReadyState.routeCounter + 1) % u64Mod)) ∧
     (upgradeCode
         (drainedAbsent sampleReadyState.absentFetcher RouterResultCode.NoError
           ["US_California", "US_Nevada"]) RouterResultCode.NoError
        ≠ RouterResultCode.NoError →
       (AsyncRouter.calcRouteBody sampleReadyState
          (EngineOutcome.result RouterResultCode.NoError)
          ["US_California", "US_Nevada"]).tasks.filter isSecondaryTask
         = [if upgradeCode
                (drainedAbsent sampleReadyState.absentFetcher
                  RouterResultCode.NoError ["US_California", "US_Nevada"])
                RouterResultCode.NoError
              = RouterResultCode.NeedMoreMaps
            then UITask.onNeedMoreMaps 0
                   ((sampleReadyState.routeCounter + 1) % u64Mod)
                   (drainedAbsent sampleReadyState.absentFetcher
                     RouterResultCode.NoError ["US_California", "US_Nevada"])
            else UITask.onRemoveRoute 0
                   (upgradeCode
                     (drainedAbsent sampleReadyState.absentFetcher
                       RouterResultCode.NoError ["US_California", "US_Nevada"])
                     RouterResultCode.NoError)]) ∧
     (upgradeCode
         (drainedAbsent sampleReadyState.absentFetcher RouterResultCode.NoError
           ["US_California", "US_Nevada"]) RouterResultCode.NoError
        = RouterResultCode.NoError →
       (AsyncRouter.calcRouteBody sampleReadyState
          (EngineOutcome.result RouterResultCode.NoError)
          ["US_California", "US_Nevada"]).tasks.countP isSecondaryTask = 0) ∧
     ((AsyncRouter.calcRouteBody sampleReadyState
         (EngineOutcome.result RouterResultCode.NoError)
         ["US_California", "US_Nevada"]).tasks
        = (AsyncRouter.calcRouteBody sampleReadyState
             (EngineOutcome.result RouterResultCode.NoError)
             ["US_California", "US_Nevada"]).tasks.filter
             (fun t => !isSecondaryTask t)
          ++ (AsyncRouter.calcRouteBody sampleReadyState
               (EngineOutcome.result RouterResultCode.NoError)
               ["US_California", "US_Nevada"]).tasks.filter isSecondaryTask)) :=
  ⟨rfl, rfl, rfl,
   secondary_delivery_exactly_one sampleReadyState
     ["US_California", "US_Nevada"] RouterResultCode.NoError "astar" 0
     rfl rfl rfl⟩

/-- C4: in a non-exception worker execution that passes the snapshot guards,
`GetAbsentCountries` is consulted iff a fetcher is present and the engine's
code is not `Cancelled`; and the code is changed — necessarily to
`NeedMoreMaps` — iff the drained absent list is non-empty and the code was
`NoError`. -/
theorem absent_fetch_and_upgrade (s : AsyncRouterState) (fetched : List String)
    (code : RouterResultCode) (rname : String) (i : Nat)
    (hreq : s.hasRequest = true) (hrt : s.router = some rname)
    (hd : s.delegate = some i) :
    ((AsyncRouter.calcRouteBody s (EngineOutcome.result code) fetched).getAbsentCalled
        = true
      ↔ s.absentFetcher = true ∧ code ≠ RouterResultCode.Cancelled) ∧
    (upgradeCode (drainedAbsent s.absentFetcher code fetched) code ≠ code
      ↔ drainedAbsent s.absentFetcher code fetched ≠ []
        ∧ code = RouterResultCode.NoError) ∧
    (upgradeCode (drainedAbsent s.absentFetcher code fetched) code ≠ code →
      upgradeCode (drainedAbsent s.absentFetcher code fetched) code
        = RouterResultCode.NeedMoreMaps) := by
  refine ⟨?_, ?_, ?_⟩
  · simp [AsyncRouter.calcRouteBody, hreq, hrt, hd, Bool.and_eq_true,
          decide_eq_true_iff]
  · unfold upgradeCode
    split_ifs with h
    · obtain ⟨h1, h2⟩ := h
      subst h2
      simp [h1]
    · simp [h]
  · unfold upgradeCode
    split_ifs with h
    · intro _; rfl
    · intro hcontra; exact absurd rfl hcontra

/-- Witness for C4 on a ready dispatcher with engine code `NoError` and a
non-empty fetched list. -/
theorem absent_fetch_and_upgrade_witness :
    sampleReadyState.hasRequest = true ∧
    sampleReadyState.router = some "astar" ∧
    sampleReadyState.delegate = some 0 ∧
    (((AsyncRouter.calcRouteBody sampleReadyState
         (EngineOutcome.result RouterResultCode.NoError) ["US_Nevada"]).getAbsentCalled
         = true
       ↔ sampleReadyState.absentFetcher = true
         ∧ RouterResultCode.NoError ≠ RouterResultCode.Cancelled) ∧
     (upgradeCode
         (drainedAbsent sampleReadyState.absentFetcher RouterResultCode.NoError
           ["US_Nevada"]) RouterResultCode.NoError ≠ RouterResultCode.NoError
       ↔ drainedAbsent sampleReadyState.absentFetcher RouterResultCode.NoError
           ["US_Nevada"] ≠ []
         ∧ RouterResultCode.NoError = RouterResultCode.NoError) ∧
     (upgradeCode
         (drainedAbsent sampleReadyState.absentFetcher RouterResultCode.NoError
           ["US_Nevada"]) RouterResultCode.NoError ≠ RouterResultCode.NoError →
       upgradeCode
         (drainedAbsent sampleReadyState.absentFetcher RouterResultCode.NoError
           ["US_Nevada"]) RouterResultCode.NoError
         = RouterResultCode.NeedMoreMaps)) :=
  ⟨rfl, rfl, rfl,
   absent_fetch_and_upgrade sampleReadyState ["US_Nevada"]
     RouterResultCode.NoError "astar" 0 rfl rfl rfl⟩

/-- Each event step either produces no route id and leaves the counter
unchanged (public API calls, dropped worker runs), or produces exactly one
id — the incremented counter value — and stores it back. -/
theorem stepEvent_routeCounter (s : AsyncRouterState)
    (e : AsyncRouter.DispatchEvent) :
    ((AsyncRouter.stepEvent s e).2 = none ∧
     (AsyncRouter.stepEvent s e).1.routeCounter = s.routeCounter) ∨
    ((AsyncRouter.stepEvent s e).2 = some ((s.routeCounter + 1) % u64Mod) ∧
     (AsyncRouter.stepEvent s e).1.routeCounter
       = (s.routeCounter + 1) % u64Mod) := by
  cases e with
  | setRouter r f =>
      left
      cases hds : s.delegate <;>
        simp [AsyncRouter.stepEvent, AsyncRouter.SetRouter,
              AsyncRouter.ResetDelegate, hds]
  | submit a =>
      left
      cases hds : s.delegate <;>
        simp [AsyncRouter.stepEvent, AsyncRouter.submitCalculateRoute,
              AsyncRouter.ResetDelegate, hds]
  | clearStateCall =>
      left
      cases hds : s.delegate <;>
        simp [AsyncRouter.stepEvent, AsyncRouter.ClearState,
              AsyncRouter.ResetDelegate, hds]
  | workerRun eng fetched =>
      by_cases hreq : s.hasRequest = true
      · cases hrt : s.router with
        | none =>
            left
            simp [AsyncRouter.stepEvent, AsyncRouter.calcRouteBody, hreq, hrt]
        | some rname =>
            cases hds : s.delegate with
            | none =>
                left
                simp [AsyncRouter.stepEvent, AsyncRouter.calcRouteBody,
                      hreq, hrt, hds]
            | some i =>
                right
                cases eng <;>
                  simp [AsyncRouter.stepEvent, AsyncRouter.calcRouteBody,
                        hreq, hrt, hds]
      · left
        have hreq' : s.hasRequest = false := by
          cases hq : s.hasRequest
          · rfl
          · exact absurd hq hreq
        simp [AsyncRouter.stepEvent, AsyncRouter.calcRouteBody, hreq']

/-- Along any event history without counter wrap-around, the produced route
ids are the consecutive integers starting one above the initial counter. -/
theorem runEvents_ids (es : List AsyncRouter.DispatchEvent) :
    ∀ s : AsyncRouterState,
      s.routeCounter + ((AsyncRouter.runEvents s es).2).length < u64Mod →
      (AsyncRouter.runEvents s es).2
        = List.range' (s.routeCounter + 1)
            ((AsyncRouter.runEvents s es).2).length := by
  induction es with
  | nil => intro s _; rfl
  | cons e es ih =>
      intro s h
      rcases stepEvent_routeCounter s e with ⟨hp, hc⟩ | ⟨hp, hc⟩
      · have h2 : (AsyncRouter.runEvents s (e :: es)).2
            = (AsyncRouter.runEvents (AsyncRouter.stepEvent s e).1 es).2 := by
          simp [AsyncRouter.runEvents, hp]
        rw [h2] at h ⊢
        rw [← hc]
        exact ih _ (by rw [hc]; exact h)
      · have hlen1 : 1 ≤ ((AsyncRouter.runEvents s (e :: es)).2).length := by
          simp [AsyncRouter.runEvents, hp]
        have hlt : s.routeCounter + 1 < u64Mod := by omega
        have hmod : (s.routeCounter + 1) % u64Mod = s.routeCounter + 1 :=
          Nat.mod_eq_of_lt hlt
        have h2 : (AsyncRouter.runEvents s (e :: es)).2
            = (s.routeCounter + 1)
              :: (AsyncRouter.runEvents (AsyncRouter.stepEvent s e).1 es).2 := by
          simp [AsyncRouter.runEvents, hp, hmod]
        rw [h2] at h ⊢
        have hc' : (AsyncRouter.stepEvent s e).1.routeCounter
            = s.routeCounter + 1 := by rw [hc, hmod]
        have ih' := ih (AsyncRouter.stepEvent s e).1
          (by rw [hc']; simp only [List.length_cons] at h; omega)
        rw [hc'] at ih'
        simp only [List.length_cons]
        rw [List.range'_succ, ih']
        simp [List.length_range']

/-- C6: the dispatcher's route counter starts at 0 and is incremented
exactly once per executed request (each step either produces no id and
leaves the counter, or produces exactly the pre-increment value plus one);
across any event history short of the `uint64` wrap-around the produced
route ids are exactly 1, 2, 3, … — strictly increasing, hence unique — and
the first produced route has id 1. -/
theorem route_ids_strictly_increasing (hasSink pointCheck : Bool)
    (es : List AsyncRouter.DispatchEvent)
    (h : ((AsyncRouter.runEvents (AsyncRouter.initState hasSink pointCheck)
            es).2).length < u64Mod) :
    (AsyncRouter.initState hasSink pointCheck).routeCounter = 0 ∧
    (AsyncRouter.runEvents (AsyncRouter.initState hasSink pointCheck) es).2
      = List.range' 1
          ((AsyncRouter.runEvents (AsyncRouter.initState hasSink pointCheck)
             es).2).length ∧
    List.Pairwise (· < ·)
      (AsyncRouter.runEvents (AsyncRouter.initState hasSink pointCheck) es).2 ∧
    (∀ (s : AsyncRouterState) (e : AsyncRouter.DispatchEvent),
      ((AsyncRouter.stepEvent s e).2 = none ∧
       (AsyncRouter.stepEvent s e).1.routeCounter = s.routeCounter) ∨
      ((AsyncRouter.stepEvent s e).2 = some ((s.routeCounter + 1) % u64Mod) ∧
       (AsyncRouter.stepEvent s e).1.routeCounter
         = (s.routeCounter + 1) % u64Mod)) := by
  have h0 : (AsyncRouter.initState hasSink pointCheck).routeCounter
      + ((AsyncRouter.runEvents (AsyncRouter.initState hasSink pointCheck)
           es).2).length < u64Mod := by
    simpa [AsyncRouter.initState] using h
  have hids := runEvents_ids es (AsyncRouter.initState hasSink pointCheck) h0
  have hids' : (AsyncRouter.runEvents (AsyncRouter.initState hasSink pointCheck)
      es).2
      = List.range' 1
          ((AsyncRouter.runEvents (AsyncRouter.initState hasSink pointCheck)
             es).2).length := by
    simpa [AsyncRouter.initState] using hids
  refine ⟨rfl, hids', ?_, stepEvent_routeCounter⟩
  rw [hids']
  exact List.pairwise_lt_range' ..

/-- Witness for C6 on `sampleEvents`: two executed requests produce route
ids 1 and 2. -/
theorem route_ids_strictly_increasing_witness :
    ((AsyncRouter.runEvents (AsyncRouter.initState true false)
        sampleEvents).2).length < u64Mod ∧
    ((AsyncRouter.initState true false).routeCounter = 0 ∧
     (AsyncRouter.runEvents (AsyncRouter.initState true false) sampleEvents).2
       = List.range' 1
           ((AsyncRouter.runEvents (AsyncRouter.initState true false)
              sampleEvents).2).length ∧
     List.Pairwise (· < ·)
       (AsyncRouter.runEvents (AsyncRouter.initState true false)
          sampleEvents).2 ∧
     (∀ (s : AsyncRouterState) (e : AsyncRouter.DispatchEvent),
       ((AsyncRouter.stepEvent s e).2 = none ∧
        (AsyncRouter.stepEvent s e).1.routeCounter = s.routeCounter) ∨
       ((AsyncRouter.stepEvent s e).2 = some ((s.routeCounter + 1) % u64Mod) ∧
        (AsyncRouter.stepEvent s e).1.routeCounter
          = (s.routeCounter + 1) % u64Mod))) :=
  ⟨by decide,
   route_ids_strictly_increasing true false sampleEvents (by decide)⟩

/-- C9: the worker's snapshot copies rather than clears the pending-request
fields: an executed run changes only the has-request flag (cleared) and the
route counter (incremented) — checkpoints, direction, adjust flag, engine,
fetcher, proxy heap and the active-delegate slot are untouched, so the
finished request's proxy stays installed; the next `CalculateRoute`,
`SetRouter` or `ClearState` call therefore cancels exactly that proxy, and
each of this run's scheduled-but-unexecuted delegate tasks then invokes no
user callback. (`hnext` holds in every reachable state: delegate ids are
allocated strictly below `nextProxyId`.) -/
theorem snapshot_keeps_slot_next_call_cancels (s : AsyncRouterState)
    (eng : EngineOutcome) (fetched : List String) (rname : String) (i : Nat)
    (hreq : s.hasRequest = true) (hrt : s.router = some rname)
    (hd : s.delegate = some i) (hnext : i < s.nextProxyId) :
    (AsyncRouter.calcRouteBody s eng fetched).state
       = { s with hasRequest := false,
                  routeCounter := (s.routeCounter + 1) % u64Mod } ∧
    (AsyncRouter.calcRouteBody s eng fetched).state.delegate = some i ∧
    ((AsyncRouter.ClearState
        (AsyncRouter.calcRouteBody s eng fetched).state).proxies i).cancelled
      = true ∧
    (∀ r f, ((AsyncRouter.SetRouter
        (AsyncRouter.calcRouteBody s eng fetched).state r f).proxies i).cancelled
      = true) ∧
    (∀ a, ((AsyncRouter.submitCalculateRoute
        (AsyncRouter.calcRouteBody s eng fetched).state a).proxies i).cancelled
      = true) ∧
    (∀ t ∈ (AsyncRouter.calcRouteBody s eng fetched).tasks,
      taskProxyId t = some i ∨ taskProxyId t = none) ∧
    (∀ t ∈ (AsyncRouter.calcRouteBody s eng fetched).tasks,
      invokesUserCallback
        (AsyncRouter.ClearState
          (AsyncRouter.calcRouteBody s eng fetched).state).proxies t = false ∧
      (∀ r f, invokesUserCallback
        (AsyncRouter.SetRouter
          (AsyncRouter.calcRouteBody s eng fetched).state r f).proxies t
        = false) ∧
      (∀ a, invokesUserCallback
        (AsyncRouter.submitCalculateRoute
          (AsyncRouter.calcRouteBody s eng fetched).state a).proxies t
        = false)) := by
  have hstate : (AsyncRouter.calcRouteBody s eng fetched).state
      = { s with hasRequest := false,
                 routeCounter := (s.routeCounter + 1) % u64Mod } := by
    cases eng <;> simp [AsyncRouter.calcRouteBody, hreq, hrt, hd]
  have hdel : (AsyncRouter.calcRouteBody s eng fetched).state.delegate
      = some i := by
    rw [hstate]; exact hd
  have hni : (AsyncRouter.calcRouteBody s eng fetched).state.nextProxyId
      = s.nextProxyId := by
    rw [hstate]
  have hclr : ((AsyncRouter.ClearState
      (AsyncRouter.calcRouteBody s eng fetched).state).proxies i).cancelled
      = true := by
    simp [AsyncRouter.ClearState, AsyncRouter.ResetDelegate, hdel,
          RouterDelegateProxy.cancel]
  have hsetr : ∀ r f, ((AsyncRouter.SetRouter
      (AsyncRouter.calcRouteBody s eng fetched).state r f).proxies i).cancelled
      = true := by
    intro r f
    simp [AsyncRouter.SetRouter, AsyncRouter.ResetDelegate, hdel,
          RouterDelegateProxy.cancel]
  have hsub : ∀ a, ((AsyncRouter.submitCalculateRoute
      (AsyncRouter.calcRouteBody s eng fetched).state a).proxies i).cancelled
      = true := by
    intro a
    simp [AsyncRouter.submitCalculateRoute, AsyncRouter.ResetDelegate, hdel,
          RouterDelegateProxy.cancel, hni, Nat.ne_of_lt hnext]
  have hall : ((AsyncRouter.calcRouteBody s eng fetched).tasks.all
      (fun t => (taskProxyId t == some i) || (taskProxyId t == none)))
      = true := by
    cases eng with
    | exn msg => simp [AsyncRouter.calcRouteBody, hreq, hrt, hd, taskProxyId]
    | result code =>
        simp only [AsyncRouter.calcRouteBody, hreq, hrt, hd]
        split_ifs <;> simp_all [taskProxyId]
  have htask : ∀ t ∈ (AsyncRouter.calcRouteBody s eng fetched).tasks,
      taskProxyId t = some i ∨ taskProxyId t = none := by
    intro t ht
    have := List.all_eq_true.mp hall t ht
    simpa using this
  have hfire : ∀ p : RouterDelegateProxy, p.cancelled = true →
      p.onReadyFires = false ∧ p.onNeedMoreMapsFires = false ∧
      p.onRemoveRouteFires = false := by
    intro p hp
    refine ⟨?_, ?_, ?_⟩ <;>
      simp [RouterDelegateProxy.onReadyFires,
            RouterDelegateProxy.onNeedMoreMapsFires,
            RouterDelegateProxy.onRemoveRouteFires, hp]
  have hinv : ∀ ps : Nat → RouterDelegateProxy, (ps i).cancelled = true →
      ∀ t : UITask, taskProxyId t = some i →
        invokesUserCallback ps t = false := by
    intro ps hps t hti
    cases t with
    | statsResult c => simp [taskProxyId] at hti
    | statsExn m => simp [taskProxyId] at hti
    | onReady j rid c =>
        simp [taskProxyId] at hti
        subst hti
        simpa [invokesUserCallback] using (hfire _ hps).1
    | onNeedMoreMaps j rid ab =>
        simp [taskProxyId] at hti
        subst hti
        simpa [invokesUserCallback] using (hfire _ hps).2.1
    | onRemoveRoute j c =>
        simp [taskProxyId] at hti
        subst hti
        simpa [invokesUserCallback] using (hfire _ hps).2.2
  refine ⟨hstate, hdel, hclr, hsetr, hsub, htask, ?_⟩
  intro t ht
  rcases htask t ht with hti | hti
  · exact ⟨hinv _ hclr t hti, fun r f => hinv _ (hsetr r f) t hti,
           fun a => hinv _ (hsub a) t hti⟩
  · have hnone : ∀ ps : Nat → RouterDelegateProxy,
        invokesUserCallback ps t = false := by
      intro ps
      cases t <;> simp [taskProxyId] at hti <;> simp [invokesUserCallback]
    exact ⟨hnone _, fun r f => hnone _, fun a => hnone _⟩

/-- Witness for C9 on the sample request run to a `NoError` completion. -/
theorem snapshot_keeps_slot_next_call_cancels_witness :
    sampleReadyState.hasRequest = true ∧
    sampleReadyState.router = some "astar" ∧
    sampleReadyState.delegate = some 0 ∧
    0 < sampleReadyState.nextProxyId ∧
    (sampleOutcome.state
       = { sampleReadyState with
             hasRequest := false
             routeCounter := (sampleReadyState.routeCounter + 1) % u64Mod } ∧
     sampleOutcome.state.delegate = some 0 ∧
     ((AsyncRouter.ClearState sampleOutcome.state).proxies 0).cancelled = true ∧
     (∀ r f, ((AsyncRouter.SetRouter sampleOutcome.state r f).proxies
        0).cancelled = true) ∧
     (∀ a, ((AsyncRouter.submitCalculateRoute sampleOutcome.state a).proxies
        0).cancelled = true) ∧
     (∀ t ∈ sampleOutcome.tasks,
       taskProxyId t = some 0 ∨ taskProxyId t = none) ∧
     (∀ t ∈ sampleOutcome.tasks,
       invokesUserCallback
         (AsyncRouter.ClearState sampleOutcome.state).proxies t = false ∧
       (∀ r f, invokesUserCallback
         (AsyncRouter.SetRouter sampleOutcome.state r f).proxies t = false) ∧
       (∀ a, invokesUserCallback
         (AsyncRouter.submitCalculateRoute sampleOutcome.state a).proxies t
         = false))) :=
  ⟨rfl, rfl, rfl, Nat.zero_lt_one,
   snapshot_keeps_slot_next_call_cancels sampleReadyState
     (EngineOutcome.result RouterResultCode.NoError) [] "astar" 0
     rfl rfl rfl Nat.zero_lt_one⟩

/-- C7 counterexample: on a dispatcher with no engine, a live delegate and
the clear-state flag down, `ClearState` changes the observable state — it
raises the clear-state flag and clears the delegate slot — so it is not a
no-op as claimed. -/
theorem clearState_no_engine_not_noop :
    clearStateSample.router = none ∧
    clearStateSample.clearState = false ∧
    (AsyncRouter.ClearState clearStateSample).clearState = true ∧
    clearStateSample.delegate = some 0 ∧
    (AsyncRouter.ClearState clearStateSample).delegate = none ∧
    AsyncRouter.ClearState clearStateSample ≠ clearStateSample := by
  refine ⟨rfl, rfl, rfl, rfl, rfl, fun hcontra => ?_⟩
  have hflag := congrArg AsyncRouterState.clearState hcontra
  simp [AsyncRouter.ClearState, AsyncRouter.ResetDelegate, clearStateSample,
        AsyncRouter.initState] at hflag

/-- C7 (amended): `ClearState` on a dispatcher with no engine never leads to
an engine `ClearState` call (the worker's handling requires an engine, and
the flag survives the next worker wake-up); its whole effect is to set the
clear-state flag and to cancel and remove the active delegate, all other
dispatcher fields unchanged. -/
theorem clearState_no_engine_effect (s : AsyncRouterState)
    (eng : EngineOutcome) (fetched : List String) (hr : s.router = none) :
    (AsyncRouter.ClearState s).clearState = true ∧
    (AsyncRouter.ClearState s).delegate = none ∧
    (∀ i, s.delegate = some i →
      ((AsyncRouter.ClearState s).proxies i).cancelled = true) ∧
    (s.delegate = none → (AsyncRouter.ClearState s).proxies = s.proxies) ∧
    (AsyncRouter.ClearState s).router = s.router ∧
    (AsyncRouter.ClearState s).hasRequest = s.hasRequest ∧
    (AsyncRouter.ClearState s).threadExit = s.threadExit ∧
    (AsyncRouter.ClearState s).checkpoints = s.checkpoints ∧
    (AsyncRouter.ClearState s).startDirection = s.startDirection ∧
    (AsyncRouter.ClearState s).adjustToPrevRoute = s.adjustToPrevRoute ∧
    (AsyncRouter.ClearState s).absentFetcher = s.absentFetcher ∧
    (AsyncRouter.ClearState s).routeCounter = s.routeCounter ∧
    (AsyncRouter.ClearState s).nextProxyId = s.nextProxyId ∧
    (AsyncRouter.threadFuncIter (AsyncRouter.ClearState s) eng
        fetched).engineClearStateCalled = false ∧
    (AsyncRouter.threadFuncIter (AsyncRouter.ClearState s) eng
        fetched).engineCalled = false ∧
    (AsyncRouter.threadFuncIter (AsyncRouter.ClearState s) eng
        fetched).state.clearState = true := by
  have hfi : ∀ t : AsyncRouterState, t.router = none → t.clearState = true →
      (AsyncRouter.threadFuncIter t eng fetched).engineClearStateCalled = false ∧
      (AsyncRouter.threadFuncIter t eng fetched).engineCalled = false ∧
      (AsyncRouter.threadFuncIter t eng fetched).state.clearState = true := by
    intro t htr htc
    by_cases hex : t.threadExit = true
    · simp [AsyncRouter.threadFuncIter, htr, htc, hex]
    · by_cases hhr : t.hasRequest = true
      · simp [AsyncRouter.threadFuncIter, AsyncRouter.calcRouteBody,
              htr, htc, hex, hhr]
      · simp [AsyncRouter.threadFuncIter, htr, htc, hex, hhr]
  have hrr : (AsyncRouter.ClearState s).router = none := by
    cases hds : s.delegate <;>
      simp [AsyncRouter.ClearState, AsyncRouter.ResetDelegate, hds, hr]
  have hcc : (AsyncRouter.ClearState s).clearState = true := by
    cases hds : s.delegate <;>
      simp [AsyncRouter.ClearState, AsyncRouter.ResetDelegate, hds]
  obtain ⟨e1, e2, e3⟩ := hfi _ hrr hcc
  refine ⟨hcc, ?_, ?_, ?_, hr ▸ hrr, ?_, ?_, ?_, ?_, ?_, ?_, ?_, ?_, e1, e2, e3⟩
  · cases hds : s.delegate <;>
      simp [AsyncRouter.ClearState, AsyncRouter.ResetDelegate, hds]
  · intro i hdi
    simp [AsyncRouter.ClearState, AsyncRouter.ResetDelegate, hdi,
          RouterDelegateProxy.cancel]
  · intro hdn
    simp [AsyncRouter.ClearState, AsyncRouter.ResetDelegate, hdn]
  all_goals
    cases hds : s.delegate <;>
      simp [AsyncRouter.ClearState, AsyncRouter.ResetDelegate, hds]

/-- Witness for C7's amended theorem at the counterexample state. -/
theorem clearState_no_engine_effect_witness :
    clearStateSample.router = none ∧
    ((AsyncRouter.ClearState clearStateSample).clearState = true ∧
     (AsyncRouter.ClearState clearStateSample).delegate = none ∧
     (∀ i, clearStateSample.delegate = some i →
       ((AsyncRouter.ClearState clearStateSample).proxies i).cancelled = true) ∧
     (clearStateSample.delegate = none →
       (AsyncRouter.ClearState clearStateSample).proxies = clearStateSample.proxies) ∧
     (AsyncRouter.ClearState clearStateSample).router = clearStateSample.router ∧
     (AsyncRouter.ClearState clearStateSample).hasRequest = clearStateSample.hasRequest ∧
     (AsyncRouter.ClearState clearStateSample).threadExit = clearStateSample.threadExit ∧
     (AsyncRouter.ClearState clearStateSample).checkpoints = clearStateSample.checkpoints ∧
     (AsyncRouter.ClearState clearStateSample).startDirection = clearStateSample.startDirection ∧
     (AsyncRouter.ClearState clearStateSample).adjustToPrevRoute = clearStateSample.adjustToPrevRoute ∧
     (AsyncRouter.ClearState clearStateSample).absentFetcher = clearStateSample.absentFetcher ∧
     (AsyncRouter.ClearState clearStateSample).routeCounter = clearStateSample.routeCounter ∧
     (AsyncRouter.ClearState clearStateSample).nextProxyId = clearStateSample.nextProxyId ∧
     (AsyncRouter.threadFuncIter (AsyncRouter.ClearState clearStateSample)
        (EngineOutcome.result RouterResultCode.NoError) []).engineClearStateCalled = false ∧
     (AsyncRouter.threadFuncIter (AsyncRouter.ClearState clearStateSample)
        (EngineOutcome.result RouterResultCode.NoError) []).engineCalled = false ∧
     (AsyncRouter.threadFuncIter (AsyncRouter.ClearState clearStateSample)
        (EngineOutcome.result RouterResultCode.NoError) []).state.clearState = true) :=
  ⟨rfl, clearState_no_engine_effect clearStateSample
    (EngineOutcome.result RouterResultCode.NoError) [] rfl⟩

end Routing
